import Mathlib

/-!
Shallow embedding of the block-height-versioned query engine of the
consensource REST API (src/database.rs, src/route_handlers/factories.rs,
src/route_handlers/certificates.rs).

Database tables are embedded as Lean lists of row structures; each diesel
query chain becomes an explicit `List.filter` over the corresponding list,
with `.first()` modelled by `List.head?` (diesel `first` adds `LIMIT 1` and
returns the first row of the result set).  External PostgreSQL text-matching
primitives (`pg_trgm` `similarity`, `to_tsvector @@ plainto_tsquery`) are
kept abstract as oracle parameters, exactly as the source treats them as
opaque SQL functions.  The resolved head block number is a parameter of
every query function: the route handlers obtain it once per request (from
the `paging` crate helper `get_head_block_num`) and thread the same value
through every sub-query, which is the shape embedded here.
-/

namespace ConsenSource

/-- Modelled from the spec: the `database_manager` crate defining
`OrganizationTypeEnum` is not under src/; variants reconstructed from its
uses in src (`Factory`, `CertifyingBody`, `StandardsBody`). -/
inductive OrganizationTypeEnum where
  | Factory
  | CertifyingBody
  | StandardsBody
  deriving DecidableEq, Repr

/-- Modelled from the spec: the `database_manager` crate defining `RoleEnum`
is not under src/; variants reconstructed from its uses in src tests. -/
inductive RoleEnum where
  | Admin
  | Transactor
  deriving DecidableEq, Repr

/-- Modelled from the spec: the `database_manager` crate defining
`AssertionTypeEnum` is not under src/; variants reconstructed from src. -/
inductive AssertionTypeEnum where
  | Factory
  | Certificate
  | Standard
  deriving DecidableEq, Repr

/-- The error taxonomy of `errors::ApiError` as used by the route handlers
under src/ (the `Unauthorized` and `BadRequest` variants exist but are not
produced by the versioned query paths embedded here). -/
inductive ApiError where
  | NotFound (msg : String)
  | BadRequest (msg : String)
  | InternalError (msg : String)
  deriving DecidableEq, Repr

/-- Modelled from the spec: `database_manager::models::Organization`; field
set reconstructed from `NewOrganization` in src tests and column uses. -/
structure Organization where
  start_block_num : Int
  end_block_num : Int
  organization_id : String
  name : String
  organization_type : OrganizationTypeEnum
  deriving DecidableEq, Repr

/-- Modelled from the spec: `database_manager::models::Address`; field set
reconstructed from `NewAddress` in src tests plus the generated
`text_searchable_address_col` tsvector column used by full-text search. -/
structure Address where
  start_block_num : Int
  end_block_num : Int
  organization_id : String
  street_line_1 : String
  street_line_2 : Option String
  city : String
  state_province : Option String
  country : String
  postal_code : Option String
  text_searchable_address_col : String
  deriving DecidableEq, Repr

/-- `Address::default()` used by the handlers when a factory has no address
row valid at the head. -/
def Address.emptyDefault : Address :=
  Address.mk 0 0 "" "" none "" none "" none ""

/-- Modelled from the spec: `database_manager::models::Contact`; field set
reconstructed from `NewContact` in src tests. -/
structure Contact where
  start_block_num : Int
  end_block_num : Int
  organization_id : String
  name : String
  phone_number : String
  language_code : String
  deriving DecidableEq, Repr

/-- Modelled from the spec: `database_manager::models::Authorization`;
field set reconstructed from `NewAuthorization` in src tests. -/
structure Authorization where
  start_block_num : Int
  end_block_num : Int
  organization_id : String
  public_key : String
  role : RoleEnum
  deriving DecidableEq, Repr

/-- Modelled from the spec: `database_manager::models::Certificate`; field
set reconstructed from `NewCertificate` in src tests. -/
structure Certificate where
  start_block_num : Int
  end_block_num : Int
  certificate_id : String
  certifying_body_id : String
  factory_id : String
  standard_id : String
  standard_version : String
  valid_from : Int
  valid_to : Int
  deriving DecidableEq, Repr

/-- Modelled from the spec: `database_manager::models::Standard`; field set
reconstructed from `NewStandard` in src tests. -/
structure Standard where
  start_block_num : Int
  end_block_num : Int
  standard_id : String
  organization_id : String
  name : String
  deriving DecidableEq, Repr

/-- Modelled from the spec: `database_manager::models::Assertion`; field
set reconstructed from `NewAssertion` in src tests. -/
structure Assertion where
  start_block_num : Int
  end_block_num : Int
  assertion_id : String
  assertor_pub_key : String
  assertion_type : AssertionTypeEnum
  object_id : String
  data_id : Option String
  deriving DecidableEq, Repr

/-- The versioned relational projection read by the query engine: one list
per table of `database_manager::tables_schema`, in storage order. -/
structure Db where
  organizations : List Organization
  addresses : List Address
  contacts : List Contact
  authorizations : List Authorization
  certificates : List Certificate
  standards : List Standard
  assertions : List Assertion
  deriving Repr

/-- The temporal validity filter applied by every query:
`start_block_num.le(head)` and `end_block_num.gt(head)`. -/
def validAtB (start_block_num end_block_num head : Int) : Bool :=
  decide (start_block_num ≤ head) && decide (end_block_num > head)

/-- `database.rs`: `pub const SIMILARITY_THRESHOLD: f32 = 0.2;`, embedded as
the exact rational 1/5 = 0.2. -/
def SIMILARITY_THRESHOLD : ℚ := mkRat 1 5

/-- Abstract oracles for the PostgreSQL text primitives the source calls as
opaque SQL functions: `similarity` (pg_trgm trigram score in [0,1], over a
nullable text column) and the full-text match
`to_tsvector(doc) @@ plainto_tsquery(query)` (also used against the
precomputed `text_searchable_address_col` vector). -/
structure TextOracles where
  similarity : Option String → String → ℚ
  tsMatch : String → String → Bool

/-- `FactoryParams` of `route_handlers/factories.rs`. -/
structure FactoryParams where
  name : Option String
  search : Option String
  city : Option String
  state_province : Option String
  country : Option String
  postal_code : Option String
  limit : Option Int
  offset : Option Int
  head : Option Int
  expand : Option Bool
  deriving DecidableEq, Repr

/-- `FactoryParams::default()`: every field `None`. -/
def FactoryParams.noneDefault : FactoryParams :=
  FactoryParams.mk none none none none none none none none none none

/-- `CertificateParams` of `route_handlers/certificates.rs`. -/
structure CertificateParams where
  certifying_body_id : Option String
  factory_id : Option String
  limit : Option Int
  offset : Option Int
  head : Option Int
  deriving DecidableEq, Repr

/-- `CertificateParams::default()`: every field `None`. -/
def CertificateParams.noneDefault : CertificateParams :=
  CertificateParams.mk none none none none none

/-- Modelled from the spec: the `paging` crate (not under src/) exposes
`DEFAULT_LIMIT = 100` (spec section 4.5: defaults limit = 100). -/
def DEFAULT_LIMIT : Int := 100

/-- Modelled from the spec: the `paging` crate (not under src/) exposes
`DEFAULT_OFFSET = 0` (spec section 4.5: defaults offset = 0). -/
def DEFAULT_OFFSET : Int := 0

/-! ## SearchMatcher key sets (`query_factories`, factories.rs)

Each fuzzy field filter runs one sub-query over `addresses`, restricted to
the head, keeping rows whose trigram similarity against the query string
exceeds `SIMILARITY_THRESHOLD` (`similarity(col, q).gt(SIMILARITY_THRESHOLD)`
— a strict comparison), and selects `organization_id`.  The source also
orders this id sub-query by the matched column descending; the ids are then
consumed only through `eq_any` (set membership), for which that ordering is
immaterial, so it is not reproduced here. -/

/-- The generic fuzzy sub-query of `query_factories`: one text column of
`addresses` (as a nullable column, matching the `.nullable()` casts in the
source) scored against the query string. -/
def address_fuzzy_org_ids (db : Db) (ot : TextOracles) (head : Int)
    (col : Address → Option String) (q : String) : List String :=
  (db.addresses.filter (fun a =>
      validAtB a.start_block_num a.end_block_num head &&
      decide (ot.similarity (col a) q > SIMILARITY_THRESHOLD))).map
    (fun a => a.organization_id)

/-- The `city` fuzzy filter sub-query (`addresses::city.nullable()`). -/
def city_org_ids (db : Db) (ot : TextOracles) (head : Int) (q : String) :
    List String :=
  address_fuzzy_org_ids db ot head (fun a => some a.city) q

/-- The `state_province` fuzzy filter sub-query (the column is nullable). -/
def state_province_org_ids (db : Db) (ot : TextOracles) (head : Int)
    (q : String) : List String :=
  address_fuzzy_org_ids db ot head (fun a => a.state_province) q

/-- The `country` fuzzy filter sub-query (`addresses::country.nullable()`). -/
def country_org_ids (db : Db) (ot : TextOracles) (head : Int) (q : String) :
    List String :=
  address_fuzzy_org_ids db ot head (fun a => a.country) q

/-- The `postal_code` fuzzy filter sub-query (the column is nullable). -/
def postal_code_org_ids (db : Db) (ot : TextOracles) (head : Int)
    (q : String) : List String :=
  address_fuzzy_org_ids db ot head (fun a => a.postal_code) q

/-- Full-text `search`, first key set: standards valid at the head whose
name matches the term (inner sub-query of `matched_cert_org_ids`). -/
def matched_standard_ids (db : Db) (ot : TextOracles) (head : Int)
    (search : String) : List String :=
  (db.standards.filter (fun s =>
      validAtB s.start_block_num s.end_block_num head &&
      ot.tsMatch s.name search)).map (fun s => s.standard_id)

/-- Full-text `search`, first key set: factories owning a certificate valid
at the head whose standard's name matches the term. -/
def matched_cert_org_ids (db : Db) (ot : TextOracles) (head : Int)
    (search : String) : List String :=
  (db.certificates.filter (fun c =>
      validAtB c.start_block_num c.end_block_num head &&
      (matched_standard_ids db ot head search).contains c.standard_id)).map
    (fun c => c.factory_id)

/-- Full-text `search`, second key set: organizations whose searchable
address vector (valid at the head) matches the term. -/
def matched_address_org_ids (db : Db) (ot : TextOracles) (head : Int)
    (search : String) : List String :=
  (db.addresses.filter (fun a =>
      validAtB a.start_block_num a.end_block_num head &&
      ot.tsMatch a.text_searchable_address_col search)).map
    (fun a => a.organization_id)

/-- Full-text `search`, third key set: organizations (valid at the head)
whose name matches the term. -/
def matched_org_name_ids (db : Db) (ot : TextOracles) (head : Int)
    (search : String) : List String :=
  (db.organizations.filter (fun o =>
      validAtB o.start_block_num o.end_block_num head &&
      ot.tsMatch o.name search)).map (fun o => o.organization_id)

/-- The combined `search` key set: the source appends the three key sets
(`search_org_ids.append` of cert, address, then org matches) and uses the
result through `eq_any`. -/
def search_org_ids (db : Db) (ot : TextOracles) (head : Int)
    (search : String) : List String :=
  matched_cert_org_ids db ot head search ++
    matched_address_org_ids db ot head search ++
      matched_org_name_ids db ot head search

/-! ## The factories list query (`query_factories`) -/

/-- The dynamically composed predicate of both `factories_query` and
`count_query` in `query_factories`: base temporal/type filters, then each
active filter chained with a further `.filter(...)` (conjunction).  The
`name` filter is an equality; `search` and the four fuzzy filters each
narrow by `organization_id.eq_any(<key set>)`. -/
def factory_predicate (db : Db) (ot : TextOracles) (head : Int)
    (params : FactoryParams) (o : Organization) : Bool :=
  validAtB o.start_block_num o.end_block_num head &&
  decide (o.organization_type = OrganizationTypeEnum.Factory) &&
  (match params.name with
    | some n => decide (o.name = n)
    | none => true) &&
  (match params.search with
    | some s => (search_org_ids db ot head s).contains o.organization_id
    | none => true) &&
  (match params.city with
    | some c => (city_org_ids db ot head c).contains o.organization_id
    | none => true) &&
  (match params.state_province with
    | some sp =>
        (state_province_org_ids db ot head sp).contains o.organization_id
    | none => true) &&
  (match params.country with
    | some c => (country_org_ids db ot head c).contains o.organization_id
    | none => true) &&
  (match params.postal_code with
    | some pc =>
        (postal_code_org_ids db ot head pc).contains o.organization_id
    | none => true)

/-- The pre-pagination matching row set (shared by `factories_query` before
`order_by`/`limit`/`offset` and by `count_query`). -/
def factories_filtered (db : Db) (ot : TextOracles) (head : Int)
    (params : FactoryParams) : List Organization :=
  db.organizations.filter (factory_predicate db ot head params)

/-- `total_count` of `query_factories`: the `count_query` result. -/
def factories_total_count (db : Db) (ot : TextOracles) (head : Int)
    (params : FactoryParams) : Int :=
  (factories_filtered db ot head params).length

/-- The ordering relation of `order_by(organizations::organization_id.asc())`. -/
def orgIdLe (a b : Organization) : Prop :=
  a.organization_id ≤ b.organization_id

instance : DecidableRel orgIdLe := fun a b =>
  inferInstanceAs (Decidable (a.organization_id ≤ b.organization_id))

instance : IsTotal Organization orgIdLe :=
  ⟨fun a b => le_total a.organization_id b.organization_id⟩

instance : IsTrans Organization orgIdLe :=
  ⟨fun _ _ _ hab hbc => le_trans hab hbc⟩

/-- The page of primary rows produced by `factories_query`: the filtered
set ordered by `organization_id` ascending, then `offset`/`limit` applied
(defaults `DEFAULT_OFFSET`/`DEFAULT_LIMIT` when the params omit them). -/
def query_factories_page (db : Db) (ot : TextOracles)
    (params : FactoryParams) (head : Int) : List Organization :=
  (((factories_filtered db ot head params).insertionSort orgIdLe).drop
      (params.offset.getD DEFAULT_OFFSET).toNat).take
    (params.limit.getD DEFAULT_LIMIT).toNat

/-! ## TemporalJoinPlanner: `query_certifications` (factories.rs)

The source left-joins `standards`, `organizations` and `assertions` onto the
head-filtered certificates, each join condition carrying the same head
filter.  Under a unique natural key per head each left join contributes at
most one row, embedded as `List.head?` of the head-filtered match list.
A `None` standard or certifying body is then rejected with
`ApiError::InternalError`; a `None` assertion id is kept as `None`. -/

/-- The standard joined onto a certificate at the head. -/
def joined_standard (db : Db) (head : Int) (c : Certificate) :
    Option Standard :=
  (db.standards.filter (fun s =>
      decide (s.standard_id = c.standard_id) &&
      validAtB s.start_block_num s.end_block_num head)).head?

/-- The certifying-body organization joined onto a certificate at the head. -/
def joined_certifying_body (db : Db) (head : Int) (c : Certificate) :
    Option Organization :=
  (db.organizations.filter (fun o =>
      decide (o.organization_id = c.certifying_body_id) &&
      validAtB o.start_block_num o.end_block_num head)).head?

/-- The assertion id joined onto a certificate at the head (optional). -/
def joined_assertion_id (db : Db) (head : Int) (objectId : String) :
    Option String :=
  ((db.assertions.filter (fun a =>
      decide (a.object_id = objectId) &&
      validAtB a.start_block_num a.end_block_num head)).head?).map
    (fun a => a.assertion_id)

/-- The head-filtered certificates of the given factories (the primary
filter of `query_certifications`). -/
def certs_of_factories (db : Db) (head : Int) (factory_ids : List String) :
    List Certificate :=
  db.certificates.filter (fun c =>
    validAtB c.start_block_num c.end_block_num head &&
    factory_ids.contains c.factory_id)

/-- One expanded certificate row of `query_certifications`: rejects a
missing Standard or certifying body with `InternalError`, keeps the
assertion id optional. -/
def expand_certificate (db : Db) (head : Int) (c : Certificate) :
    Except ApiError (Certificate × Standard × Organization × Option String) :=
  match joined_standard db head c with
  | none => Except.error (ApiError.InternalError
      "No Standard was provided, but one must exist")
  | some std =>
    match joined_certifying_body db head c with
    | none => Except.error (ApiError.InternalError
        "No Certifying Body was provided, but one must exist")
    | some org =>
        Except.ok (c, std, org, joined_assertion_id db head c.certificate_id)

/-- Rust's `iter().map(f).collect::<Result<Vec<_>, _>>()`: apply `f` to each
element in order, stopping at (and returning) the first error. -/
def collectExcept (f : α → Except ε β) : List α → Except ε (List β)
  | [] => Except.ok []
  | x :: xs =>
    match f x with
    | Except.error e => Except.error e
    | Except.ok y =>
      match collectExcept f xs with
      | Except.error e => Except.error e
      | Except.ok ys => Except.ok (y :: ys)

/-- `query_certifications`: the batched certificate expansion shared by the
factories fetch (when `expand` is given) and the factories list. -/
def query_certifications (db : Db) (head : Int)
    (factory_ids : List String) :
    Except ApiError
      (List (Certificate × Standard × Organization × Option String)) :=
  collectExcept (expand_certificate db head) (certs_of_factories db head factory_ids)

/-! ## The factories single-entity fetch (`fetch_factory_with_head_param`) -/

/-- The assembled per-factory payload (`ApiFactory` with certificates and
assertion); when the response is not expanded the `certificates` field is
left empty. -/
structure ApiFactoryData where
  factory : Organization
  address : Address
  contacts : List Contact
  authorizations : List Authorization
  certificates : List (Certificate × Standard × Organization × Option String)
  assertion_id : Option String
  deriving DecidableEq, Repr

/-- The primary row selection of `fetch_factory_with_head_param`: type,
natural key and temporal filters, then diesel `.first(...).optional()`
(which returns the first matching row, if any). -/
def factory_fetch_matches (db : Db) (head : Int) (organization_id : String) :
    List Organization :=
  db.organizations.filter (fun o =>
    decide (o.organization_type = OrganizationTypeEnum.Factory) &&
    decide (o.organization_id = organization_id) &&
    validAtB o.start_block_num o.end_block_num head)

/-- The per-organization dependent rows of the factories fetch, each
re-filtered to the same head. -/
def fetch_contacts (db : Db) (head : Int) (organization_id : String) :
    List Contact :=
  db.contacts.filter (fun c =>
    decide (c.organization_id = organization_id) &&
    validAtB c.start_block_num c.end_block_num head)

/-- The per-organization authorizations of the factories fetch. -/
def fetch_authorizations (db : Db) (head : Int) (organization_id : String) :
    List Authorization :=
  db.authorizations.filter (fun a =>
    decide (a.organization_id = organization_id) &&
    validAtB a.start_block_num a.end_block_num head)

/-- The per-organization address of the factories fetch: `.first()`
`.optional()` then `unwrap_or_else(Address::default)`. -/
def fetch_address (db : Db) (head : Int) (organization_id : String) :
    Address :=
  ((db.addresses.filter (fun a =>
      decide (a.organization_id = organization_id) &&
      validAtB a.start_block_num a.end_block_num head)).head?).getD
    Address.emptyDefault

/-- `fetch_factory_with_head_param` at an already-resolved head.  Mirrors
the source order: primary row via `.first().optional()`, `NotFound` when
absent, otherwise dependents at the same head; `expand` present (whatever
its value) additionally runs `query_certifications` for this factory. -/
def fetch_factory (db : Db) (head : Int) (organization_id : String)
    (expand : Option Bool) : Except ApiError ApiFactoryData :=
  match (factory_fetch_matches db head organization_id).head? with
  | none => Except.error (ApiError.NotFound
      ("No factory with the organization ID " ++ organization_id ++ " exists"))
  | some factory =>
    let contact_results := fetch_contacts db head organization_id
    let authorization_results := fetch_authorizations db head organization_id
    let address_results := fetch_address db head organization_id
    let assertion_results := joined_assertion_id db head organization_id
    match expand with
    | some _ =>
      match query_certifications db head [organization_id] with
      | Except.error e => Except.error e
      | Except.ok certificate_results =>
          Except.ok (ApiFactoryData.mk factory address_results contact_results
            authorization_results certificate_results assertion_results)
    | none =>
        Except.ok (ApiFactoryData.mk factory address_results contact_results
          authorization_results [] assertion_results)

/-! ## The factories list assembly (`query_factories`) -/

/-- The full response payload of the factories list: the assembled page,
the head it was resolved at, and the pre-pagination `total_count`. -/
structure FactoriesListResult where
  data : List ApiFactoryData
  head : Int
  total_count : Int
  deriving DecidableEq, Repr

/-- `query_factories` at an already-resolved head: count, page, then one
batched dependent query per collection type over the page's ids (each
re-filtered to the same head), fanned back out per organization id.  The
batched `HashMap` groupings preserve the batch order for multi-row
collections (`entry(..).push`), and keep the last row per key for the
single-valued address/assertion maps (`insert` overwrites); under the
non-overlap invariant at most one such row exists per key.
`query_certifications` runs for the page regardless of `expand`; `expand`
(defaulted `false`) only toggles whether its rows are included in the
output shape. -/
def query_factories (db : Db) (ot : TextOracles) (params : FactoryParams)
    (head : Int) : Except ApiError FactoriesListResult :=
  let expand := params.expand.getD false
  let total_count := factories_total_count db ot head params
  let factory_results := query_factories_page db ot params head
  let factory_ids := factory_results.map (fun f => f.organization_id)
  let contact_rows := db.contacts.filter (fun c =>
    validAtB c.start_block_num c.end_block_num head &&
    factory_ids.contains c.organization_id)
  let authorization_rows := db.authorizations.filter (fun a =>
    validAtB a.start_block_num a.end_block_num head &&
    factory_ids.contains a.organization_id)
  let address_rows := db.addresses.filter (fun a =>
    validAtB a.start_block_num a.end_block_num head &&
    factory_ids.contains a.organization_id)
  let assertion_rows := db.assertions.filter (fun a =>
    validAtB a.start_block_num a.end_block_num head &&
    factory_ids.contains a.object_id)
  match query_certifications db head factory_ids with
  | Except.error e => Except.error e
  | Except.ok cert_infos =>
      Except.ok (FactoriesListResult.mk
        (factory_results.map (fun f =>
          let org_id := f.organization_id
          ApiFactoryData.mk f
            (((address_rows.filter
                (fun a => a.organization_id = org_id)).getLast?).getD
              Address.emptyDefault)
            (contact_rows.filter (fun c => c.organization_id = org_id))
            (authorization_rows.filter (fun a => a.organization_id = org_id))
            (if expand then
              cert_infos.filter (fun ci => ci.1.factory_id = org_id)
            else [])
            (((assertion_rows.filter
                (fun a => a.object_id = org_id)).getLast?).map
              (fun a => a.assertion_id))))
        head total_count)

/-! ## The certificates endpoints (certificates.rs) -/

/-- `require_org`: the required lookup of an organization by natural key at
the head; diesel `.first().optional()`, with a missing match reported as a
data-integrity `InternalError` (note: no `organization_type` filter). -/
def require_org (db : Db) (org_id : String) (head : Int) :
    Except ApiError Organization :=
  match (db.organizations.filter (fun o =>
      decide (o.organization_id = org_id) &&
      validAtB o.start_block_num o.end_block_num head)).head? with
  | some o => Except.ok o
  | none => Except.error (ApiError.InternalError
      ("No org exists for the id provided: " ++ org_id ++
        " (as of block num " ++ toString head ++ ")"))

/-- The primary row selection of `fetch_certificate_with_head_param`:
natural key plus temporal filters, then `.first(...).optional()`. -/
def certificate_fetch_matches (db : Db) (head : Int)
    (certificate_id : String) : List Certificate :=
  db.certificates.filter (fun c =>
    decide (c.certificate_id = certificate_id) &&
    validAtB c.start_block_num c.end_block_num head)

/-- `fetch_certificate_with_head_param` at an already-resolved head: the
first matching certificate row (or `NotFound`), its factory via
`require_org`, then the left-joined standard and certifying body rejected
with `InternalError` when absent; the assertion id stays optional. -/
def fetch_certificate (db : Db) (head : Int) (certificate_id : String) :
    Except ApiError
      (Certificate × Organization × Standard × Organization ×
        Option String) :=
  match (certificate_fetch_matches db head certificate_id).head? with
  | none => Except.error (ApiError.NotFound
      ("No certificate with the ID " ++ certificate_id ++ " exists"))
  | some cert =>
    match require_org db cert.factory_id head with
    | Except.error e => Except.error e
    | Except.ok factory =>
      match joined_standard db head cert with
      | none => Except.error (ApiError.InternalError
          "No Standard was provided, but one must exist")
      | some std =>
        match joined_certifying_body db head cert with
        | none => Except.error (ApiError.InternalError
            "No Certifying Body was provided, but one must exist")
        | some org =>
            Except.ok (cert, factory, std, org,
              joined_assertion_id db head cert.certificate_id)

/-- The dynamically composed predicate shared by `certificate_query` and
`count_query` in `list_certificates_with_params`: temporal filters plus the
optional `certifying_body_id` and `factory_id` equality filters.  Neither
query specifies any `order_by`. -/
def certificate_predicate (head : Int) (params : CertificateParams)
    (c : Certificate) : Bool :=
  validAtB c.start_block_num c.end_block_num head &&
  (match params.certifying_body_id with
    | some b => decide (c.certifying_body_id = b)
    | none => true) &&
  (match params.factory_id with
    | some f => decide (c.factory_id = f)
    | none => true)

/-- The pre-pagination matching certificate rows of the certificates list. -/
def certificates_filtered (db : Db) (head : Int)
    (params : CertificateParams) : List Certificate :=
  db.certificates.filter (certificate_predicate head params)

/-- `total_count` of the certificates list (`count_query`). -/
def certificates_total_count (db : Db) (head : Int)
    (params : CertificateParams) : Int :=
  (certificates_filtered db head params).length

/-- The page of primary certificate rows: `offset`/`limit` applied to the
filtered rows.  The source specifies no ordering for this query, so the
rows stay in storage order. -/
def list_certificates_page (db : Db) (params : CertificateParams)
    (head : Int) : List Certificate :=
  ((certificates_filtered db head params).drop
      (params.offset.getD DEFAULT_OFFSET).toNat).take
    (params.limit.getD DEFAULT_LIMIT).toNat

/-- The full response payload of the certificates list. -/
structure CertificatesListResult where
  data : List (Certificate × Organization × Standard × Organization ×
    Option String)
  head : Int
  total_count : Int
  deriving DecidableEq, Repr

/-- One expanded row of the certificates list: the left-joined standard and
certifying body (rejected with `InternalError` when absent at the head),
the factory via `require_org`, the assertion id optional.  The source
evaluates `require_org` before inspecting the joined columns. -/
def expand_certificate_row (db : Db) (head : Int) (c : Certificate) :
    Except ApiError
      (Certificate × Organization × Standard × Organization ×
        Option String) :=
  match require_org db c.factory_id head with
  | Except.error e => Except.error e
  | Except.ok factory =>
    match joined_standard db head c with
    | none => Except.error (ApiError.InternalError
        "No Standard was provided, but one must exist")
    | some std =>
      match joined_certifying_body db head c with
      | none => Except.error (ApiError.InternalError
          "No Certifying Body was provided, but one must exist")
      | some org =>
          Except.ok (c, factory, std, org,
            joined_assertion_id db head c.certificate_id)

/-- `list_certificates_with_params` at an already-resolved head. -/
def list_certificates (db : Db) (params : CertificateParams) (head : Int) :
    Except ApiError CertificatesListResult :=
  match collectExcept (expand_certificate_row db head)
      (list_certificates_page db params head) with
  | Except.error e => Except.error e
  | Except.ok rows =>
      Except.ok (CertificatesListResult.mk rows head
        (certificates_total_count db head params))

/-! ## PaginationCalculator link templates (`apply_paging`)

Each endpoint's `apply_paging` rebuilds the link template handed to the
`paging` crate's `get_response_paging_info` from scratch.  The factories
variant regenerates only `name` (percent-encoded), `head` and `expand`, in
that order; the certificates variant regenerates `certifying_body_id`,
`factory_id` and `head`, in that order.  `Uri::percent_encode` lives in the
external rocket crate and is kept abstract as the `enc` parameter. -/

/-- The link template built by `apply_paging` in factories.rs. -/
def factories_paging_link (enc : String → String) (params : FactoryParams)
    (head : Int) : String :=
  let link := "/api/factories?"
  let link := match params.name with
    | some n => link ++ "name=" ++ enc n ++ "&"
    | none => link
  let link := link ++ "head=" ++ toString head ++ "&"
  match params.expand with
  | some e => link ++ "expand=" ++ toString e ++ "&"
  | none => link

/-- The link template built by `apply_paging` in certificates.rs. -/
def certificates_paging_link (params : CertificateParams) (head : Int) :
    String :=
  let link := "/api/certificates?"
  let link := match params.certifying_body_id with
    | some b => link ++ "certifying_body_id=" ++ b ++ "&"
    | none => link
  let link := match params.factory_id with
    | some f => link ++ "factory_id=" ++ f ++ "&"
    | none => link
  link ++ "head=" ++ toString head ++ "&"

/-- Erases the filter fields of `FactoryParams` that never reach
`apply_paging`'s link (`search` and the four fuzzy filters). -/
def FactoryParams.scrubSearchFilters (p : FactoryParams) : FactoryParams :=
  FactoryParams.mk p.name none none none none none p.limit p.offset p.head
    p.expand

/-! ## Helper lemmas -/

theorem validAtB_iff {s e h : Int} :
    validAtB s e h = true ↔ s ≤ h ∧ e > h := by
  simp [validAtB]

theorem mem_address_fuzzy_org_ids {db : Db} {ot : TextOracles} {head : Int}
    {col : Address → Option String} {q k : String} :
    k ∈ address_fuzzy_org_ids db ot head col q ↔
      ∃ a, a ∈ db.addresses ∧ (a.start_block_num ≤ head ∧
        a.end_block_num > head) ∧
        SIMILARITY_THRESHOLD < ot.similarity (col a) q ∧
        a.organization_id = k := by
  simp only [address_fuzzy_org_ids, List.mem_map, List.mem_filter,
    Bool.and_eq_true, validAtB_iff, decide_eq_true_eq]
  constructor
  · rintro ⟨a, ⟨ha, hv, hs⟩, hk⟩
    exact ⟨a, ha, hv, hs, hk⟩
  · rintro ⟨a, ha, hv, hs, hk⟩
    exact ⟨a, ⟨ha, hv, hs⟩, hk⟩

theorem mem_matched_standard_ids {db : Db} {ot : TextOracles} {head : Int}
    {q sid : String} :
    sid ∈ matched_standard_ids db ot head q ↔
      ∃ s, s ∈ db.standards ∧ (s.start_block_num ≤ head ∧
        s.end_block_num > head) ∧
        ot.tsMatch s.name q = true ∧ s.standard_id = sid := by
  simp only [matched_standard_ids, List.mem_map, List.mem_filter,
    Bool.and_eq_true, validAtB_iff]
  constructor
  · rintro ⟨s, ⟨hs, hv, hm⟩, hid⟩
    exact ⟨s, hs, hv, hm, hid⟩
  · rintro ⟨s, hs, hv, hm, hid⟩
    exact ⟨s, ⟨hs, hv, hm⟩, hid⟩

theorem mem_matched_cert_org_ids {db : Db} {ot : TextOracles} {head : Int}
    {q k : String} :
    k ∈ matched_cert_org_ids db ot head q ↔
      ∃ c, c ∈ db.certificates ∧ (c.start_block_num ≤ head ∧
        c.end_block_num > head) ∧
        c.standard_id ∈ matched_standard_ids db ot head q ∧
        c.factory_id = k := by
  simp only [matched_cert_org_ids, List.mem_map, List.mem_filter,
    Bool.and_eq_true, validAtB_iff, List.elem_iff]
  constructor
  · rintro ⟨c, ⟨hc, hv, hm⟩, hid⟩
    exact ⟨c, hc, hv, hm, hid⟩
  · rintro ⟨c, hc, hv, hm, hid⟩
    exact ⟨c, ⟨hc, hv, hm⟩, hid⟩

theorem mem_matched_address_org_ids {db : Db} {ot : TextOracles}
    {head : Int} {q k : String} :
    k ∈ matched_address_org_ids db ot head q ↔
      ∃ a, a ∈ db.addresses ∧ (a.start_block_num ≤ head ∧
        a.end_block_num > head) ∧
        ot.tsMatch a.text_searchable_address_col q = true ∧
        a.organization_id = k := by
  simp only [matched_address_org_ids, List.mem_map, List.mem_filter,
    Bool.and_eq_true, validAtB_iff]
  constructor
  · rintro ⟨a, ⟨ha, hv, hm⟩, hid⟩
    exact ⟨a, ha, hv, hm, hid⟩
  · rintro ⟨a, ha, hv, hm, hid⟩
    exact ⟨a, ⟨ha, hv, hm⟩, hid⟩

theorem mem_matched_org_name_ids {db : Db} {ot : TextOracles} {head : Int}
    {q k : String} :
    k ∈ matched_org_name_ids db ot head q ↔
      ∃ o, o ∈ db.organizations ∧ (o.start_block_num ≤ head ∧
        o.end_block_num > head) ∧
        ot.tsMatch o.name q = true ∧ o.organization_id = k := by
  simp only [matched_org_name_ids, List.mem_map, List.mem_filter,
    Bool.and_eq_true, validAtB_iff]
  constructor
  · rintro ⟨o, ⟨ho, hv, hm⟩, hid⟩
    exact ⟨o, ho, hv, hm, hid⟩
  · rintro ⟨o, ho, hv, hm, hid⟩
    exact ⟨o, ⟨ho, hv, hm⟩, hid⟩

theorem factory_predicate_iff {db : Db} {ot : TextOracles} {head : Int}
    {params : FactoryParams} {o : Organization} :
    factory_predicate db ot head params o = true ↔
      (o.start_block_num ≤ head ∧ o.end_block_num > head) ∧
      o.organization_type = OrganizationTypeEnum.Factory ∧
      (∀ n, params.name = some n → o.name = n) ∧
      (∀ s, params.search = some s →
        o.organization_id ∈ search_org_ids db ot head s) ∧
      (∀ c, params.city = some c →
        o.organization_id ∈ city_org_ids db ot head c) ∧
      (∀ sp, params.state_province = some sp →
        o.organization_id ∈ state_province_org_ids db ot head sp) ∧
      (∀ c, params.country = some c →
        o.organization_id ∈ country_org_ids db ot head c) ∧
      (∀ pc, params.postal_code = some pc →
        o.organization_id ∈ postal_code_org_ids db ot head pc) := by
  simp only [factory_predicate, Bool.and_eq_true, validAtB_iff,
    decide_eq_true_eq, List.elem_iff]
  cases params.name <;> cases params.search <;> cases params.city <;>
    cases params.state_province <;> cases params.country <;>
      cases params.postal_code <;>
    simp_all <;> tauto

theorem mem_factories_filtered {db : Db} {ot : TextOracles} {head : Int}
    {params : FactoryParams} {o : Organization} :
    o ∈ factories_filtered db ot head params ↔
      o ∈ db.organizations ∧ factory_predicate db ot head params o = true := by
  simp [factories_filtered, List.mem_filter]

theorem mem_query_factories_page {db : Db} {ot : TextOracles} {head : Int}
    {params : FactoryParams} {o : Organization} :
    o ∈ query_factories_page db ot params head →
      o ∈ db.organizations ∧ factory_predicate db ot head params o = true := by
  intro hmem
  have h1 : o ∈ ((factories_filtered db ot head params).insertionSort
      orgIdLe).drop (params.offset.getD DEFAULT_OFFSET).toNat :=
    (List.take_sublist _ _).subset hmem
  have h2 : o ∈ (factories_filtered db ot head params).insertionSort
      orgIdLe :=
    (List.drop_sublist _ _).subset h1
  have h3 : o ∈ factories_filtered db ot head params :=
    (List.perm_insertionSort orgIdLe _).subset h2
  exact mem_factories_filtered.mp h3

theorem mem_of_head?_eq_some {α : Type} {l : List α} {a : α}
    (h : l.head? = some a) : a ∈ l := by
  cases l with
  | nil => simp at h
  | cons x xs =>
    simp only [List.head?_cons, Option.some.injEq] at h
    subst h
    exact List.mem_cons_self x xs

theorem mem_factory_fetch_matches {db : Db} {head : Int} {orgId : String}
    {o : Organization} :
    o ∈ factory_fetch_matches db head orgId ↔
      o ∈ db.organizations ∧
      o.organization_type = OrganizationTypeEnum.Factory ∧
      o.organization_id = orgId ∧
      (o.start_block_num ≤ head ∧ o.end_block_num > head) := by
  simp [factory_fetch_matches, List.mem_filter, validAtB_iff, and_assoc]

theorem fetch_factory_ok_head? {db : Db} {head : Int} {orgId : String}
    {expand : Option Bool} {d : ApiFactoryData}
    (hok : fetch_factory db head orgId expand = Except.ok d) :
    (factory_fetch_matches db head orgId).head? = some d.factory := by
  cases h : (factory_fetch_matches db head orgId).head? with
  | none => simp [fetch_factory, h] at hok
  | some fac =>
    simp only [fetch_factory, h] at hok
    cases expand with
    | none =>
      cases hok
      rfl
    | some b =>
      cases hq : query_certifications db head [orgId] with
      | error e => simp [hq] at hok
      | ok rows =>
        rw [hq] at hok
        cases hok
        rfl

/-! ## Concrete fixtures used by witnesses and counterexamples -/

/-- An oracle under which nothing matches: similarity 0, no ts-match. -/
def otNull : TextOracles := TextOracles.mk (fun _ _ => 0) (fun _ _ => false)

/-- A factory organization whose validity interval is exactly [1, 2). -/
def orgShort : Organization :=
  Organization.mk 1 2 "factory_1" "Factory One" OrganizationTypeEnum.Factory

/-- A projection holding only `orgShort`. -/
def dbShort : Db := Db.mk [orgShort] [] [] [] [] [] []

/-- Two distinct factory rows sharing the natural key "dup", both valid at
head 1 (a violation of invariant I1 that the storage does not enforce). -/
def orgDupA : Organization :=
  Organization.mk 1 10 "dup" "First" OrganizationTypeEnum.Factory

/-- The second row of the duplicated natural key. -/
def orgDupB : Organization :=
  Organization.mk 1 10 "dup" "Second" OrganizationTypeEnum.Factory

/-- A projection holding both duplicated rows. -/
def dbDup : Db := Db.mk [orgDupA, orgDupB] [] [] [] [] [] []

/-! ## Claims -/

/-- C1: for every entity query at a resolved head H, a versioned row is
returned only if it is valid at H, where validity is exactly
`start_block_num ≤ H` and `end_block_num > H` — stated for the factories
list page and the factories single-entity fetch. -/
theorem claim1_row_returned_only_if_valid :
    ∀ (db : Db) (ot : TextOracles) (params : FactoryParams) (head : Int)
      (f : Organization),
      (f ∈ query_factories_page db ot params head →
        f.start_block_num ≤ head ∧ f.end_block_num > head) ∧
      (∀ (orgId : String) (expand : Option Bool) (d : ApiFactoryData),
        fetch_factory db head orgId expand = Except.ok d →
        d.factory.start_block_num ≤ head ∧
          d.factory.end_block_num > head) := by
  intro db ot params head f
  constructor
  · intro hmem
    exact (factory_predicate_iff.mp (mem_query_factories_page hmem).2).1
  · intro orgId expand d hok
    have hmem := mem_of_head?_eq_some (fetch_factory_ok_head? hok)
    exact (mem_factory_fetch_matches.mp hmem).2.2.2

/-- C1 witness: the factory with interval [1, 2) is on the page at head 1
(and the theorem yields its validity there); the same projection yields an
empty page at head 2 (the end boundary is exclusive). -/
theorem claim1_witness :
    orgShort ∈ query_factories_page dbShort otNull FactoryParams.noneDefault 1 ∧
    (orgShort.start_block_num ≤ 1 ∧ orgShort.end_block_num > 1) ∧
    query_factories_page dbShort otNull FactoryParams.noneDefault 2 = [] :=
  ⟨by decide,
    (claim1_row_returned_only_if_valid dbShort otNull
      FactoryParams.noneDefault 1 orgShort).1 (by decide),
    by decide⟩

/-- C2 (amended): a single-entity fetch silently proceeds with the first
row matching the natural key at the head (diesel `first()` adds `LIMIT 1`);
more than one matching row is not detected as an error. -/
theorem claim2_first_matching_row :
    (∀ (db : Db) (head : Int) (orgId : String) (f : Organization),
      (factory_fetch_matches db head orgId).head? = some f →
      ∃ d, fetch_factory db head orgId none = Except.ok d ∧ d.factory = f) ∧
    (∀ (db : Db) (head : Int) (certId : String) (c : Certificate),
      (certificate_fetch_matches db head certId).head? = some c →
      fetch_certificate db head certId = expand_certificate_row db head c) := by
  constructor
  · intro db head orgId f h
    exact ⟨ApiFactoryData.mk f (fetch_address db head orgId)
        (fetch_contacts db head orgId) (fetch_authorizations db head orgId)
        [] (joined_assertion_id db head orgId),
      by simp [fetch_factory, h], rfl⟩
  · intro db head certId c h
    simp only [fetch_certificate, h, expand_certificate_row]

/-- C2 witness: with two rows sharing key "dup" valid at head 1, the fetch
returns the first row. -/
theorem claim2_witness :
    (factory_fetch_matches dbDup 1 "dup").head? = some orgDupA ∧
    ∃ d, fetch_factory dbDup 1 "dup" none = Except.ok d ∧
      d.factory = orgDupA :=
  ⟨rfl, claim2_first_matching_row.1 dbDup 1 "dup" orgDupA rfl⟩

/-- C2 counterexample: two rows match the natural key "dup" at head 1, yet
the fetch succeeds with the first row instead of returning an internal
data-integrity error as the claim states. -/
theorem claim2_counterexample :
    (factory_fetch_matches dbDup 1 "dup").length = 2 ∧
    fetch_factory dbDup 1 "dup" none =
      Except.ok (ApiFactoryData.mk orgDupA Address.emptyDefault [] [] []
        none) := by
  constructor
  · rfl
  · rfl

/-- An address row valid at head 1 with stored city "springfield". -/
def addrSpring : Address :=
  Address.mk 1 10 "org_a" "1 Main St" none "springfield" none "US" none
    "springfield 1 main st us"

/-- A projection holding only `addrSpring`. -/
def dbSpring : Db := Db.mk [] [addrSpring] [] [] [] [] []

/-- A similarity oracle that always scores exactly the threshold 0.2. -/
def otBoundary : TextOracles :=
  TextOracles.mk (fun _ _ => mkRat 1 5) (fun _ _ => false)

/-- C4 (amended): for every fuzzy field filter (city, state_province,
country, postal_code), a row's owning organization key is included in the
filter's key set iff some address row valid at the head carries that key
and its trigram-similarity score against the query string is strictly
greater than 0.2 (the source compares with `.gt(SIMILARITY_THRESHOLD)`,
not `≥`). -/
theorem claim4_fuzzy_threshold_strict :
    ∀ (db : Db) (ot : TextOracles) (head : Int) (q k : String),
      (k ∈ city_org_ids db ot head q ↔
        ∃ a, a ∈ db.addresses ∧
          (a.start_block_num ≤ head ∧ a.end_block_num > head) ∧
          ot.similarity (some a.city) q > SIMILARITY_THRESHOLD ∧
          a.organization_id = k) ∧
      (k ∈ state_province_org_ids db ot head q ↔
        ∃ a, a ∈ db.addresses ∧
          (a.start_block_num ≤ head ∧ a.end_block_num > head) ∧
          ot.similarity a.state_province q > SIMILARITY_THRESHOLD ∧
          a.organization_id = k) ∧
      (k ∈ country_org_ids db ot head q ↔
        ∃ a, a ∈ db.addresses ∧
          (a.start_block_num ≤ head ∧ a.end_block_num > head) ∧
          ot.similarity (some a.country) q > SIMILARITY_THRESHOLD ∧
          a.organization_id = k) ∧
      (k ∈ postal_code_org_ids db ot head q ↔
        ∃ a, a ∈ db.addresses ∧
          (a.start_block_num ≤ head ∧ a.end_block_num > head) ∧
          ot.similarity a.postal_code q > SIMILARITY_THRESHOLD ∧
          a.organization_id = k) :=
  fun _ _ _ _ _ =>
    ⟨mem_address_fuzzy_org_ids, mem_address_fuzzy_org_ids,
      mem_address_fuzzy_org_ids, mem_address_fuzzy_org_ids⟩

/-- C4 counterexample: an address valid at the head whose similarity score
equals 0.2 exactly — so the score is ≥ the threshold as the claim requires
— is nevertheless excluded from the city filter's key set, because the
source's comparison is strict. -/
theorem claim4_counterexample :
    SIMILARITY_THRESHOLD ≤ otBoundary.similarity (some "springfield")
      "springfield_q" ∧
    addrSpring ∈ dbSpring.addresses ∧
    (addrSpring.start_block_num ≤ 1 ∧ addrSpring.end_block_num > 1) ∧
    addrSpring.organization_id = "org_a" ∧
    city_org_ids dbSpring otBoundary 1 "springfield_q" = [] :=
  ⟨by decide, by decide, by decide, by decide, by decide⟩

/-- C6: the key set of a full-text `search` term is the union of three
independently computed key sets — organizations whose certificate's
standard name matches (via `matched_standard_ids`), organizations whose
searchable address vector matches, and organizations whose own name
matches — each computed over rows valid at the head; a key is included iff
any one of the three matches. -/
theorem claim6_search_is_union_of_three :
    ∀ (db : Db) (ot : TextOracles) (head : Int) (q k : String),
      k ∈ search_org_ids db ot head q ↔
        ((∃ c, c ∈ db.certificates ∧
            (c.start_block_num ≤ head ∧ c.end_block_num > head) ∧
            c.standard_id ∈ matched_standard_ids db ot head q ∧
            c.factory_id = k) ∨
         (∃ a, a ∈ db.addresses ∧
            (a.start_block_num ≤ head ∧ a.end_block_num > head) ∧
            ot.tsMatch a.text_searchable_address_col q = true ∧
            a.organization_id = k) ∨
         (∃ o, o ∈ db.organizations ∧
            (o.start_block_num ≤ head ∧ o.end_block_num > head) ∧
            ot.tsMatch o.name q = true ∧ o.organization_id = k)) := by
  intro db ot head q k
  simp only [search_org_ids, List.mem_append, mem_matched_cert_org_ids,
    mem_matched_address_org_ids, mem_matched_org_name_ids, or_assoc]

/-- An oracle under which every similarity score and ts-match succeeds. -/
def otMatch : TextOracles := TextOracles.mk (fun _ _ => 1) (fun _ _ => true)

/-- A factory organization valid on [1, 10). -/
def orgA : Organization :=
  Organization.mk 1 10 "org_a" "Alpha" OrganizationTypeEnum.Factory

/-- A certificate of `orgA` valid on [1, 10) referencing standard std_1. -/
def certA : Certificate :=
  Certificate.mk 1 10 "cert_1" "body_1" "org_a" "std_1" "v1" 1 2

/-- The standard std_1, valid on [1, 10). -/
def stdA : Standard := Standard.mk 1 10 "std_1" "sbody_1" "Standard One"

/-- A projection holding `orgA`, `addrSpring`, `certA` and `stdA`. -/
def dbFull : Db := Db.mk [orgA] [addrSpring] [] [] [certA] [stdA] []

/-- C7: fuzzy and full-text matching is head-aware — a key enters a
SearchMatcher key set only via a row version (address, certificate plus
its standard, or organization) that is itself valid at the resolved
head. -/
theorem claim7_matching_is_head_aware :
    ∀ (db : Db) (ot : TextOracles) (head : Int) (q k : String),
      (∀ col : Address → Option String,
        k ∈ address_fuzzy_org_ids db ot head col q →
        ∃ a, a ∈ db.addresses ∧
          (a.start_block_num ≤ head ∧ a.end_block_num > head) ∧
          a.organization_id = k) ∧
      (k ∈ matched_cert_org_ids db ot head q →
        ∃ c, c ∈ db.certificates ∧
          (c.start_block_num ≤ head ∧ c.end_block_num > head) ∧
          c.factory_id = k ∧
          ∃ s, s ∈ db.standards ∧
            (s.start_block_num ≤ head ∧ s.end_block_num > head) ∧
            s.standard_id = c.standard_id) ∧
      (k ∈ matched_address_org_ids db ot head q →
        ∃ a, a ∈ db.addresses ∧
          (a.start_block_num ≤ head ∧ a.end_block_num > head) ∧
          a.organization_id = k) ∧
      (k ∈ matched_org_name_ids db ot head q →
        ∃ o, o ∈ db.organizations ∧
          (o.start_block_num ≤ head ∧ o.end_block_num > head) ∧
          o.organization_id = k) := by
  intro db ot head q k
  refine ⟨?_, ?_, ?_, ?_⟩
  · intro col h
    obtain ⟨a, ha, hv, _, hk⟩ := mem_address_fuzzy_org_ids.mp h
    exact ⟨a, ha, hv, hk⟩
  · intro h
    obtain ⟨c, hc, hv, hstd, hk⟩ := mem_matched_cert_org_ids.mp h
    obtain ⟨s, hs, hsv, _, hsid⟩ := mem_matched_standard_ids.mp hstd
    exact ⟨c, hc, hv, hk, s, hs, hsv, hsid⟩
  · intro h
    obtain ⟨a, ha, hv, _, hk⟩ := mem_matched_address_org_ids.mp h
    exact ⟨a, ha, hv, hk⟩
  · intro h
    obtain ⟨o, ho, hv, _, hk⟩ := mem_matched_org_name_ids.mp h
    exact ⟨o, ho, hv, hk⟩

/-- C7 witness: under an all-matching oracle, the certificate-standard
search key set contains org_a, and the theorem produces the valid
certificate and standard versions behind it. -/
theorem claim7_witness :
    "org_a" ∈ matched_cert_org_ids dbFull otMatch 1 "t" ∧
    ∃ c, c ∈ dbFull.certificates ∧
      (c.start_block_num ≤ 1 ∧ c.end_block_num > 1) ∧
      c.factory_id = "org_a" ∧
      ∃ s, s ∈ dbFull.standards ∧
        (s.start_block_num ≤ 1 ∧ s.end_block_num > 1) ∧
        s.standard_id = c.standard_id :=
  ⟨by decide,
    (claim7_matching_is_head_aware dbFull otMatch 1 "t" "org_a").2.1
      (by decide)⟩

/-- The key sets of the active SearchMatcher filters of a request, in the
source's application order (search, city, state_province, country,
postal_code). -/
def active_matcher_key_sets (db : Db) (ot : TextOracles) (head : Int)
    (params : FactoryParams) : List (List String) :=
  (match params.search with
    | some s => [search_org_ids db ot head s]
    | none => []) ++
  (match params.city with
    | some c => [city_org_ids db ot head c]
    | none => []) ++
  (match params.state_province with
    | some sp => [state_province_org_ids db ot head sp]
    | none => []) ++
  (match params.country with
    | some c => [country_org_ids db ot head c]
    | none => []) ++
  (match params.postal_code with
    | some pc => [postal_code_org_ids db ot head pc]
    | none => [])

/-- Modelled from the spec (refinement comparison for the composition
rule): the claim's predicate, in which the key sets of all active
SearchMatcher field filters are unioned with each other first and only
that union is intersected with the remaining type/equality filters. -/
def factory_predicate_spec_union (db : Db) (ot : TextOracles) (head : Int)
    (params : FactoryParams) (o : Organization) : Bool :=
  validAtB o.start_block_num o.end_block_num head &&
  decide (o.organization_type = OrganizationTypeEnum.Factory) &&
  (match params.name with
    | some n => decide (o.name = n)
    | none => true) &&
  (let sets := active_matcher_key_sets db ot head params
   if sets.isEmpty then true
   else (sets.flatten).contains o.organization_id)

/-- The matching rows under the claim's union-first composition. -/
def factories_filtered_spec_union (db : Db) (ot : TextOracles) (head : Int)
    (params : FactoryParams) : List Organization :=
  db.organizations.filter (factory_predicate_spec_union db ot head params)

/-- An oracle whose similarity is 1 exactly for the query "cityq" and 0
otherwise (so only the city filter's sub-query matches anything). -/
def otCityOnly : TextOracles :=
  TextOracles.mk (fun _ q => if q = "cityq" then 1 else 0) (fun _ _ => false)

/-- A request carrying two fuzzy field filters: city and country. -/
def pUnion : FactoryParams :=
  FactoryParams.mk none none (some "cityq") none (some "countryq") none none
    none none none

/-- A projection holding `orgA` and `addrSpring` (owned by org_a). -/
def dbUnion : Db := Db.mk [orgA] [addrSpring] [] [] [] [] []

/-- C5 (amended): all filters of the factories list are ANDed — each
active SearchMatcher field filter's key set is independently intersected
with the base type/equality filters and with the other key sets (no union
across distinct field filters; only the three sub-searches inside the
single `search` term are unioned, inside `search_org_ids`). -/
theorem claim5_matcher_key_sets_intersected :
    ∀ (db : Db) (ot : TextOracles) (head : Int) (params : FactoryParams)
      (f : Organization),
      f ∈ factories_filtered db ot head params ↔
        f ∈ db.organizations ∧
        (f.start_block_num ≤ head ∧ f.end_block_num > head) ∧
        f.organization_type = OrganizationTypeEnum.Factory ∧
        (∀ n, params.name = some n → f.name = n) ∧
        (∀ s, params.search = some s →
          f.organization_id ∈ search_org_ids db ot head s) ∧
        (∀ c, params.city = some c →
          f.organization_id ∈ city_org_ids db ot head c) ∧
        (∀ sp, params.state_province = some sp →
          f.organization_id ∈ state_province_org_ids db ot head sp) ∧
        (∀ c, params.country = some c →
          f.organization_id ∈ country_org_ids db ot head c) ∧
        (∀ pc, params.postal_code = some pc →
          f.organization_id ∈ postal_code_org_ids db ot head pc) := by
  intro db ot head params f
  rw [mem_factories_filtered, factory_predicate_iff]

/-- C5 counterexample: with both a city and a country filter active, org_a
is in the city filter's key set but not the country filter's; under the
claim's union-first composition it would be returned, but the source's
conjunction of the two `eq_any` filters excludes it. -/
theorem claim5_counterexample :
    "org_a" ∈ city_org_ids dbUnion otCityOnly 1 "cityq" ∧
    factories_filtered_spec_union dbUnion otCityOnly 1 pUnion = [orgA] ∧
    factories_filtered dbUnion otCityOnly 1 pUnion = [] :=
  ⟨by decide, by decide, by decide⟩

/-! ## collectExcept lemmas -/

theorem collectExcept_ok_of_forall {α β ε : Type} {f : α → Except ε β}
    {l : List α} (h : ∀ x ∈ l, ∃ y, f x = Except.ok y) :
    ∃ ys, collectExcept f l = Except.ok ys := by
  induction l with
  | nil => exact ⟨[], rfl⟩
  | cons x xs ih =>
    obtain ⟨y, hy⟩ := h x (List.mem_cons_self x xs)
    obtain ⟨ys, hys⟩ := ih (fun z hz => h z (List.mem_cons_of_mem x hz))
    exact ⟨y :: ys, by simp [collectExcept, hy, hys]⟩

theorem collectExcept_ok_forall {α β ε : Type} {f : α → Except ε β}
    {l : List α} {ys : List β} (h : collectExcept f l = Except.ok ys) :
    ∀ x ∈ l, ∃ y, f x = Except.ok y := by
  induction l generalizing ys with
  | nil => simp
  | cons x xs ih =>
    intro z hz
    cases hfx : f x with
    | error e => simp [collectExcept, hfx] at h
    | ok y =>
      cases hxs : collectExcept f xs with
      | error e => simp [collectExcept, hfx, hxs] at h
      | ok ys2 =>
        rcases List.mem_cons.mp hz with hzx | hzxs
        · exact ⟨y, hzx ▸ hfx⟩
        · exact ih hxs z hzxs

theorem collectExcept_error_mem {α β ε : Type} {f : α → Except ε β}
    {l : List α} {e : ε} (h : collectExcept f l = Except.error e) :
    ∃ x, x ∈ l ∧ f x = Except.error e := by
  induction l with
  | nil => simp [collectExcept] at h
  | cons x xs ih =>
    cases hfx : f x with
    | error e2 =>
      simp only [collectExcept, hfx, Except.error.injEq] at h
      exact ⟨x, List.mem_cons_self x xs, by rw [hfx, h]⟩
    | ok y =>
      cases hxs : collectExcept f xs with
      | error e2 =>
        simp only [collectExcept, hfx, hxs, Except.error.injEq] at h
        obtain ⟨z, hz, hfz⟩ := ih (h ▸ hxs)
        exact ⟨z, List.mem_cons_of_mem x hz, hfz⟩
      | ok ys => simp [collectExcept, hfx, hxs] at h

/-! ## Error-shape lemmas for the certificate expansion -/

theorem expand_certificate_error_internal {db : Db} {head : Int}
    {c : Certificate} {e : ApiError}
    (h : expand_certificate db head c = Except.error e) :
    ∃ msg, e = ApiError.InternalError msg := by
  unfold expand_certificate at h
  cases hs : joined_standard db head c with
  | none =>
    rw [hs] at h
    exact ⟨_, (Except.error.inj h).symm⟩
  | some s =>
    rw [hs] at h
    cases hb : joined_certifying_body db head c with
    | none =>
      rw [hb] at h
      exact ⟨_, (Except.error.inj h).symm⟩
    | some o => rw [hb] at h; simp at h

theorem expand_certificate_not_ok_of_none {db : Db} {head : Int}
    {c : Certificate}
    (h : joined_standard db head c = none ∨
      joined_certifying_body db head c = none) :
    ∀ y, expand_certificate db head c ≠ Except.ok y := by
  intro y hy
  unfold expand_certificate at hy
  rcases h with h | h
  · rw [h] at hy
    simp at hy
  · cases hs : joined_standard db head c with
    | none => rw [hs] at hy; simp at hy
    | some s => rw [hs, h] at hy; simp at hy

theorem require_org_error_internal {db : Db} {org_id : String} {head : Int}
    {e : ApiError} (h : require_org db org_id head = Except.error e) :
    ∃ msg, e = ApiError.InternalError msg := by
  unfold require_org at h
  cases hh : (db.organizations.filter (fun o =>
      decide (o.organization_id = org_id) &&
      validAtB o.start_block_num o.end_block_num head)).head? with
  | none =>
    rw [hh] at h
    exact ⟨_, (Except.error.inj h).symm⟩
  | some o => rw [hh] at h; simp at h

theorem expand_certificate_row_error_internal {db : Db} {head : Int}
    {c : Certificate} {e : ApiError}
    (h : expand_certificate_row db head c = Except.error e) :
    ∃ msg, e = ApiError.InternalError msg := by
  unfold expand_certificate_row at h
  cases hro : require_org db c.factory_id head with
  | error e2 =>
    rw [hro] at h
    exact (Except.error.inj h) ▸ require_org_error_internal hro
  | ok fac =>
    rw [hro] at h
    cases hs : joined_standard db head c with
    | none =>
      rw [hs] at h
      exact ⟨_, (Except.error.inj h).symm⟩
    | some s =>
      rw [hs] at h
      cases hb : joined_certifying_body db head c with
      | none =>
        rw [hb] at h
        exact ⟨_, (Except.error.inj h).symm⟩
      | some o => rw [hb] at h; simp at h

theorem expand_certificate_row_not_ok_of_none {db : Db} {head : Int}
    {c : Certificate}
    (h : joined_standard db head c = none ∨
      joined_certifying_body db head c = none) :
    ∀ y, expand_certificate_row db head c ≠ Except.ok y := by
  intro y hy
  unfold expand_certificate_row at hy
  cases hro : require_org db c.factory_id head with
  | error e2 => rw [hro] at hy; simp at hy
  | ok fac =>
    rw [hro] at hy
    rcases h with h | h
    · rw [h] at hy
      simp at hy
    · cases hs : joined_standard db head c with
      | none => rw [hs] at hy; simp at hy
      | some s => rw [hs, h] at hy; simp at hy

theorem joined_standard_none_iff {db : Db} {head : Int} {c : Certificate} :
    joined_standard db head c = none ↔
      ∀ s ∈ db.standards, s.standard_id = c.standard_id →
        ¬(s.start_block_num ≤ head ∧ s.end_block_num > head) := by
  simp only [joined_standard, List.head?_eq_none_iff,
    List.filter_eq_nil_iff, Bool.and_eq_true, validAtB_iff,
    decide_eq_true_eq, not_and]

theorem joined_certifying_body_none_iff {db : Db} {head : Int}
    {c : Certificate} :
    joined_certifying_body db head c = none ↔
      ∀ o ∈ db.organizations, o.organization_id = c.certifying_body_id →
        ¬(o.start_block_num ≤ head ∧ o.end_block_num > head) := by
  simp only [joined_certifying_body, List.head?_eq_none_iff,
    List.filter_eq_nil_iff, Bool.and_eq_true, validAtB_iff,
    decide_eq_true_eq, not_and]

/-- C3: for every certificate reached by `query_certifications` (the
factories fetch/list expansion), the certificates fetch, or the
certificates list, a linked Standard or certifying-body Organization with
no version valid at the resolved head makes the whole operation return an
`InternalError` (never a silently-omitted certificate or field); the first
conjunct ties "no valid version at the head" to the emptiness of the
left-join, and optional dependents (assertion, address) never contribute
an error — the success conjunct requires only the two mandatory joins. -/
theorem claim3_required_nested_entities :
    (∀ (db : Db) (head : Int) (c : Certificate),
      (joined_standard db head c = none ↔
        ∀ s ∈ db.standards, s.standard_id = c.standard_id →
          ¬(s.start_block_num ≤ head ∧ s.end_block_num > head)) ∧
      (joined_certifying_body db head c = none ↔
        ∀ o ∈ db.organizations, o.organization_id = c.certifying_body_id →
          ¬(o.start_block_num ≤ head ∧ o.end_block_num > head))) ∧
    (∀ (db : Db) (head : Int) (ids : List String) (c : Certificate),
      c ∈ certs_of_factories db head ids →
      (joined_standard db head c = none ∨
        joined_certifying_body db head c = none) →
      ∃ msg, query_certifications db head ids =
        Except.error (ApiError.InternalError msg)) ∧
    (∀ (db : Db) (head : Int) (ids : List String),
      (∀ c ∈ certs_of_factories db head ids,
        (joined_standard db head c).isSome = true ∧
        (joined_certifying_body db head c).isSome = true) →
      ∃ rows, query_certifications db head ids = Except.ok rows) ∧
    (∀ (db : Db) (head : Int) (certId : String) (c : Certificate),
      (certificate_fetch_matches db head certId).head? = some c →
      (joined_standard db head c = none ∨
        joined_certifying_body db head c = none) →
      ∃ msg, fetch_certificate db head certId =
        Except.error (ApiError.InternalError msg)) ∧
    (∀ (db : Db) (params : CertificateParams) (head : Int)
      (c : Certificate),
      c ∈ list_certificates_page db params head →
      (joined_standard db head c = none ∨
        joined_certifying_body db head c = none) →
      ∃ msg, list_certificates db params head =
        Except.error (ApiError.InternalError msg)) := by
  refine ⟨?_, ?_, ?_, ?_, ?_⟩
  · intro db head c
    exact ⟨joined_standard_none_iff, joined_certifying_body_none_iff⟩
  · intro db head ids c hc hnone
    cases hq : query_certifications db head ids with
    | ok rows =>
      obtain ⟨y, hy⟩ := collectExcept_ok_forall hq c hc
      exact absurd hy (expand_certificate_not_ok_of_none hnone y)
    | error e =>
      obtain ⟨z, _, hfz⟩ := collectExcept_error_mem hq
      obtain ⟨msg, rfl⟩ := expand_certificate_error_internal hfz
      exact ⟨msg, rfl⟩
  · intro db head ids hall
    apply collectExcept_ok_of_forall
    intro c hc
    obtain ⟨hstd, hbody⟩ := hall c hc
    obtain ⟨s, hs⟩ := Option.isSome_iff_exists.mp hstd
    obtain ⟨o, ho⟩ := Option.isSome_iff_exists.mp hbody
    exact ⟨(c, s, o, joined_assertion_id db head c.certificate_id),
      by simp [expand_certificate, hs, ho]⟩
  · intro db head certId c h hnone
    simp only [fetch_certificate, h]
    cases hro : require_org db c.factory_id head with
    | error e =>
      obtain ⟨msg, rfl⟩ := require_org_error_internal hro
      exact ⟨msg, rfl⟩
    | ok fac =>
      rcases hnone with hs | hb
      · rw [hs]
        exact ⟨_, rfl⟩
      · cases hs2 : joined_standard db head c with
        | none => exact ⟨_, rfl⟩
        | some s =>
          rw [hb]
          exact ⟨_, rfl⟩
  · intro db params head c hc hnone
    cases hq : collectExcept (expand_certificate_row db head)
        (list_certificates_page db params head) with
    | ok rows =>
      obtain ⟨y, hy⟩ := collectExcept_ok_forall hq c hc
      exact absurd hy (expand_certificate_row_not_ok_of_none hnone y)
    | error e =>
      obtain ⟨z, _, hfz⟩ := collectExcept_error_mem hq
      obtain ⟨msg, rfl⟩ := expand_certificate_row_error_internal hfz
      exact ⟨msg, by simp [list_certificates, hq]⟩

/-- A projection holding only `certA`: its standard and certifying body
have no version at all, hence none valid at any head. -/
def dbMissingStd : Db := Db.mk [] [] [] [] [certA] [] []

/-- C3 witness: with the certificate valid at head 1 but its standard
absent, `query_certifications` returns an `InternalError`. -/
theorem claim3_witness :
    certA ∈ certs_of_factories dbMissingStd 1 ["org_a"] ∧
    joined_standard dbMissingStd 1 certA = none ∧
    ∃ msg, query_certifications dbMissingStd 1 ["org_a"] =
      Except.error (ApiError.InternalError msg) :=
  ⟨by decide, by decide,
    claim3_required_nested_entities.2.1 dbMissingStd 1 ["org_a"] certA
      (by decide) (Or.inl (by decide))⟩

/-- Two certificate rows valid at head 1 whose storage order disagrees
with the ascending natural-key order. -/
def certIdB : Certificate :=
  Certificate.mk 1 10 "cert_b" "body_1" "org_b" "std_1" "v1" 1 2

/-- The lexicographically-smaller certificate, stored second. -/
def certIdA : Certificate :=
  Certificate.mk 1 10 "cert_a" "body_1" "org_a" "std_1" "v1" 1 2

/-- A projection whose certificates table stores cert_b before cert_a. -/
def dbUnsorted : Db := Db.mk [] [] [] [] [certIdB, certIdA] [] []

/-- C8 (amended): the factories list orders its page by the natural key
(`organization_id`) ascending; the certificates list specifies no ordering
at all, so its page stays in whatever order the storage returns. -/
theorem claim8_factories_page_sorted :
    ∀ (db : Db) (ot : TextOracles) (params : FactoryParams) (head : Int),
      List.Sorted orgIdLe (query_factories_page db ot params head) := by
  intro db ot params head
  have hs : List.Sorted orgIdLe
      ((factories_filtered db ot head params).insertionSort orgIdLe) :=
    List.sorted_insertionSort orgIdLe _
  have hdrop := List.Pairwise.sublist (List.drop_sublist
    (params.offset.getD DEFAULT_OFFSET).toNat _) hs
  exact List.Pairwise.sublist (List.take_sublist _ _) hdrop

/-- C8 counterexample: the certificates list page at head 1 comes back in
storage order cert_b, cert_a — not sorted by `certificate_id` ascending as
the claim asserts for every list endpoint. -/
theorem claim8_counterexample :
    (list_certificates_page dbUnsorted CertificateParams.noneDefault 1).map
      (fun c => c.certificate_id) = ["cert_b", "cert_a"] ∧
    ¬ List.Sorted (fun x y => x ≤ y)
      ((list_certificates_page dbUnsorted CertificateParams.noneDefault
        1).map (fun c => c.certificate_id)) := by
  constructor
  · rfl
  · intro h
    have : ("cert_b" : String) ≤ "cert_a" := by
      have h2 : List.Sorted (fun x y => x ≤ y)
          (["cert_b", "cert_a"] : List String) := by
        have he : (list_certificates_page dbUnsorted
            CertificateParams.noneDefault 1).map
            (fun c => c.certificate_id) = ["cert_b", "cert_a"] := rfl
        rw [he] at h
        exact h
      exact List.rel_of_sorted_cons h2 _ (List.mem_singleton.mpr rfl)
    revert this
    simp [String.le_iff_toList_le]
    decide

/-- A factories request whose only filter is the fuzzy city filter. -/
def pCity : FactoryParams :=
  FactoryParams.mk none none (some "springfield") none none none none none
    none none

/-- A certificates request with both equality filters set. -/
def pCert : CertificateParams :=
  CertificateParams.mk (some "body1") (some "fac1") none none none

/-- C9 (amended): the regenerated link string contains, in fixed order,
only the equality filters plus head/expand — `name` (percent-encoded),
`head`, `expand` for factories and `certifying_body_id`, `factory_id`,
`head` for certificates; the full-text `search` filter and the four fuzzy
filters never reach the factories link (the link is invariant under
erasing them). -/
theorem claim9_link_regenerates_equality_filters_only :
    (∀ (enc : String → String) (p : FactoryParams) (head : Int),
      factories_paging_link enc p head =
        factories_paging_link enc p.scrubSearchFilters head) ∧
    (∀ (enc : String → String) (p : FactoryParams) (head : Int)
      (n : String), p.name = some n →
      ("name=" ++ enc n ++ "&").data <:+:
        (factories_paging_link enc p head).data) ∧
    (∀ (p : CertificateParams) (head : Int) (b : String),
      p.certifying_body_id = some b →
      ("certifying_body_id=" ++ b ++ "&").data <:+:
        (certificates_paging_link p head).data) ∧
    (∀ (p : CertificateParams) (head : Int) (f : String),
      p.factory_id = some f →
      ("factory_id=" ++ f ++ "&").data <:+:
        (certificates_paging_link p head).data) := by
  refine ⟨fun enc p head => rfl, ?_, ?_, ?_⟩
  · intro enc p head n h
    cases hexp : p.expand with
    | none =>
      refine ⟨"/api/factories?".data,
        ("head=" ++ toString head ++ "&").data, ?_⟩
      simp [factories_paging_link, h, hexp, String.data_append,
        List.append_assoc]
    | some e =>
      refine ⟨"/api/factories?".data,
        ("head=" ++ toString head ++ "&" ++
          ("expand=" ++ toString e ++ "&")).data, ?_⟩
      simp [factories_paging_link, h, hexp, String.data_append,
        List.append_assoc]
  · intro p head b h
    cases hf : p.factory_id with
    | none =>
      refine ⟨"/api/certificates?".data,
        ("head=" ++ toString head ++ "&").data, ?_⟩
      simp [certificates_paging_link, h, hf, String.data_append,
        List.append_assoc]
    | some f =>
      refine ⟨"/api/certificates?".data,
        ("factory_id=" ++ f ++ "&" ++
          ("head=" ++ toString head ++ "&")).data, ?_⟩
      simp [certificates_paging_link, h, hf, String.data_append,
        List.append_assoc]
  · intro p head f h
    cases hb : p.certifying_body_id with
    | none =>
      refine ⟨"/api/certificates?".data,
        ("head=" ++ toString head ++ "&").data, ?_⟩
      simp [certificates_paging_link, h, hb, String.data_append,
        List.append_assoc]
    | some b =>
      refine ⟨("/api/certificates?" ++
          ("certifying_body_id=" ++ b ++ "&")).data,
        ("head=" ++ toString head ++ "&").data, ?_⟩
      simp [certificates_paging_link, h, hb, String.data_append,
        List.append_assoc]

/-- C9 witness: both equality filters of a certificates request appear in
its regenerated link. -/
theorem claim9_witness :
    pCert.certifying_body_id = some "body1" ∧
    (("certifying_body_id=" ++ "body1" ++ "&").data <:+:
      (certificates_paging_link pCert 1).data) ∧
    pCert.factory_id = some "fac1" ∧
    (("factory_id=" ++ "fac1" ++ "&").data <:+:
      (certificates_paging_link pCert 1).data) :=
  ⟨rfl,
    claim9_link_regenerates_equality_filters_only.2.2.1 pCert 1 "body1" rfl,
    rfl,
    claim9_link_regenerates_equality_filters_only.2.2.2 pCert 1 "fac1" rfl⟩

/-- C9 counterexample: a factories request filtered by city regenerates
the link "/api/factories?head=1&": the applied city filter appears nowhere
in the link (the string "city" is not even an infix of it), contradicting
the claim that every applied filter appears in the regenerated link. -/
theorem claim9_counterexample :
    pCity.city = some "springfield" ∧
    factories_paging_link (fun s => s) pCity 1 = "/api/factories?head=1&" ∧
    ¬ (("city".data) <:+:
      ((factories_paging_link (fun s => s) pCity 1).data)) :=
  ⟨rfl, rfl, by decide⟩

/-- C10: when no row matches at the resolved head, a single-entity fetch
by natural key returns an explicit `NotFound` error, while a list request
whose predicate matches nothing succeeds with an empty data array and
total count 0. -/
theorem claim10_notfound_vs_empty_list :
    (∀ (db : Db) (head : Int) (orgId : String) (expand : Option Bool),
      factory_fetch_matches db head orgId = [] →
      fetch_factory db head orgId expand = Except.error (ApiError.NotFound
        ("No factory with the organization ID " ++ orgId ++ " exists"))) ∧
    (∀ (db : Db) (head : Int) (certId : String),
      certificate_fetch_matches db head certId = [] →
      fetch_certificate db head certId = Except.error (ApiError.NotFound
        ("No certificate with the ID " ++ certId ++ " exists"))) ∧
    (∀ (db : Db) (ot : TextOracles) (params : FactoryParams) (head : Int),
      factories_filtered db ot head params = [] →
      query_factories db ot params head =
        Except.ok (FactoriesListResult.mk [] head 0)) ∧
    (∀ (db : Db) (params : CertificateParams) (head : Int),
      certificates_filtered db head params = [] →
      list_certificates db params head =
        Except.ok (CertificatesListResult.mk [] head 0)) := by
  refine ⟨?_, ?_, ?_, ?_⟩
  · intro db head orgId expand h
    simp [fetch_factory, h]
  · intro db head certId h
    simp [fetch_certificate, h]
  · intro db ot params head hempty
    have hpage : query_factories_page db ot params head = [] := by
      simp [query_factories_page, hempty]
    have hcount : factories_total_count db ot head params = 0 := by
      simp [factories_total_count, hempty]
    have hcerts : certs_of_factories db head [] = [] := by
      simp only [certs_of_factories, List.filter_eq_nil_iff]
      intro c _
      simp
    have hqc : query_certifications db head [] = Except.ok [] := by
      rw [query_certifications, hcerts]
      rfl
    simp [query_factories, hpage, hcount, hqc]
  · intro db params head hempty
    have hpage : list_certificates_page db params head = [] := by
      simp [list_certificates_page, hempty]
    have hcount : certificates_total_count db head params = 0 := by
      simp [certificates_total_count, hempty]
    simp [list_certificates, hpage, hcount, collectExcept]

/-- A completely empty projection. -/
def dbEmpty : Db := Db.mk [] [] [] [] [] [] []

/-- C10 witness: on the empty projection, the fetch by key is `NotFound`
while the list succeeds with no rows and total 0. -/
theorem claim10_witness :
    factory_fetch_matches dbEmpty 1 "nope" = [] ∧
    fetch_factory dbEmpty 1 "nope" none = Except.error (ApiError.NotFound
      ("No factory with the organization ID " ++ "nope" ++ " exists")) ∧
    factories_filtered dbEmpty otNull 1 FactoryParams.noneDefault = [] ∧
    query_factories dbEmpty otNull FactoryParams.noneDefault 1 =
      Except.ok (FactoriesListResult.mk [] 1 0) :=
  ⟨rfl, claim10_notfound_vs_empty_list.1 dbEmpty 1 "nope" none rfl, rfl,
    claim10_notfound_vs_empty_list.2.2.1 dbEmpty otNull
      FactoryParams.noneDefault 1 rfl⟩

end ConsenSource
